import Mathlib

/-!
Shallow embedding of the AArch64 stack-frame walker of
`src/hotspot/cpu/aarch64/frame_aarch64.cpp`:

* `frame::safe_for_sender`            (lines 57-279)
* `frame::patch_pc`                   (lines 281-312)
* `frame::is_interpreted_frame_valid` (lines 531-582)
* `JavaFrameAnchor::make_walkable`    (lines 825-834)

Machine addresses are modelled as `Int` byte addresses; one machine word is
`wordSize = 8` bytes.  Stack memory is a function `mem : Int → Int` giving the
word stored at a byte address; the null pointer is `0`.  All collaborators
that live outside the excerpt (code-cache lookup, interpreter range test,
continuation queries, pointer-authentication transforms, method metadata
predicates) are fields of an `Env` record of oracles, exactly as the spec
lists them as external interfaces.
-/

namespace FrameAarch64

/-- `sizeof(void*)` / `wordSize` on AArch64: 8 bytes. -/
def wordSize : Int := 8

/-- Modelled from the spec: `Interpreter::stackElementSize` (one word per
interpreter stack element, in bytes); defined in interpreter headers that are
not part of the excerpt. -/
def stackElementSize : Int := 8

/-- Modelled from the spec: frame slot offsets (in words, fp-relative) from
`frame_aarch64.hpp`, which is not part of the excerpt; the spec calls these
the "fixed fp-relative slots". -/
def link_offset : Int := 0

/-- Word offset of the return-address slot relative to fp. -/
def return_addr_offset : Int := 1

/-- Word offset of the sender sp relative to fp (compiled convention). -/
def sender_sp_offset : Int := 2

/-- Interpreter frame slot: the sender's unextended sp. -/
def interpreter_frame_sender_sp_offset : Int := -1

/-- Interpreter frame slot: the Method*. -/
def interpreter_frame_method_offset : Int := -3

/-- Interpreter frame slot: the ConstantPoolCache*. -/
def interpreter_frame_cache_offset : Int := -7

/-- Interpreter frame slot: the (relativized) locals base. -/
def interpreter_frame_locals_offset : Int := -8

/-- Interpreter frame slot: the bytecode pointer. -/
def interpreter_frame_bcp_offset : Int := -9

/-- Interpreter frame slot: initial expression-stack sp. -/
def interpreter_frame_initial_sp_offset : Int := -10

/-- Entry-frame slot holding the JavaCallWrapper address, fp-relative. -/
def entry_frame_call_wrapper_offset : Int := -8

/-- C++ pointer subtraction on `intptr_t*`: byte distance divided by the word
size, truncating toward zero as C++ integer division does. -/
def ptrDiffWords (a b : Int) : Int := Int.tdiv (a - b) wordSize

/-- `frame::deopt_state`. -/
inductive DeoptState where
  | not_deoptimized
  | is_deoptimized
  | unknown
deriving DecidableEq, Repr

/-- External code-unit metadata (`CodeBlob` / `nmethod`), per the spec's
CodeUnitDescriptor: address-range and completeness predicates, a frame size,
a closed classification, and the compiled-method-only queries. -/
structure CodeBlob where
  frame_complete_at : Int → Bool
  code_contains : Int → Bool
  frame_size : Int
  is_nmethod : Bool
  is_adapter_blob : Bool
  is_runtime_stub : Bool
  is_upcall_stub : Bool
  is_deopt_entry : Int → Bool
  is_deopt_mh_entry : Int → Bool
  method_is_method_handle_intrinsic : Bool

/-- A frame descriptor: the four raw machine values plus the resolved code
unit, the heap-frame classification bit and the deopt state. -/
structure Frame where
  sp : Int
  unextended_sp : Int
  fp : Int
  pc : Int
  cb : Option CodeBlob
  on_heap : Bool
  deopt_state : DeoptState

/-- Modelled from the spec: the per-thread StackBoundsOracle.  `stack_base`
is the exclusive top of the stack, `stack_end` its bottom, and
`reserved_zone_base` the top of the guard pages (the usable region starts
there).  The predicates below mirror `JavaThread::is_in_stack_range` from
thread headers that are not part of the excerpt. -/
structure JavaThread where
  stack_base : Int
  stack_end : Int
  reserved_zone_base : Int

/-- Modelled from the spec: `stack_base > addr` and `addr > limit`
(exclusive at the limit). -/
def is_in_stack_range_excl (t : JavaThread) (addr limit : Int) : Bool :=
  decide (limit < addr ∧ addr < t.stack_base)

/-- Modelled from the spec: `stack_base > addr` and `addr >= limit`
(inclusive at the limit). -/
def is_in_stack_range_incl (t : JavaThread) (addr limit : Int) : Bool :=
  decide (limit ≤ addr ∧ addr < t.stack_base)

/-- Modelled from the spec: membership in the full stack region. -/
def is_in_full_stack_checked (t : JavaThread) (addr : Int) : Bool :=
  is_in_stack_range_incl t addr t.stack_end

/-- Modelled from the spec: membership in the usable stack region, which
excludes the guard pages. -/
def is_in_usable_stack (t : JavaThread) (addr : Int) : Bool :=
  is_in_stack_range_incl t addr t.reserved_zone_base

/-- The external collaborators of the excerpt, bundled: code-cache lookup,
interpreter code-range test, stub/continuation queries, the
pointer-authentication transforms, the method metadata predicates, and the
deopt original-pc query (keyed by the frame's current pc field). -/
structure Env where
  find_blob : Int → Option CodeBlob
  interpreter_contains : Int → Bool
  returns_to_call_stub : Int → Bool
  is_return_barrier_entry : Int → Bool
  is_frame_in_continuation : Frame → Bool
  continuation_bottom_sender : Frame → Int → Frame
  entry_frame_valid : Frame → Bool
  pauth_strip_verifiable : Int → Int
  pauth_strip_pointer : Int → Int
  pauth_sign_return_address : Int → Int
  is_valid_method : Int → Bool
  method_max_stack : Int → Int
  validate_bci_from_bcp : Int → Int → Int
  metaspace_is_valid : Int → Bool
  get_deopt_original_pc : Int → Int

/-- `frame::is_interpreted_frame_valid` (lines 531-582).  The guard-clause
returns of the C++ are rendered as a Boolean conjunction in source order:
fp/sp null and alignment checks, the initial-sp and `fp <= sp` checks, the
method-validity check, the frame-size plausibility bound (against
`unextended_sp`, as the source comment insists), the bcp decode, the
constant-pool-cache check and the locals range check.  `interpreter_frame_locals`
is the relativized slot (`fp + *addr_at(interpreter_frame_locals_offset)`),
matching `interpreter_frame_set_locals` at line 326. -/
def is_interpreted_frame_valid (env : Env) (mem : Int → Int) (t : JavaThread)
    (f : Frame) : Bool :=
  (f.fp != 0) && (f.fp % wordSize == 0) &&
  (f.sp != 0) && (f.sp % wordSize == 0) &&
  !decide (f.fp + interpreter_frame_initial_sp_offset * wordSize < f.sp) &&
  decide (f.sp < f.fp) &&
  env.is_valid_method (mem (f.fp + interpreter_frame_method_offset * wordSize)) &&
  !decide (1024 + env.method_max_stack (mem (f.fp + interpreter_frame_method_offset * wordSize)) * stackElementSize
            < ptrDiffWords f.fp f.unextended_sp) &&
  decide (0 ≤ env.validate_bci_from_bcp (mem (f.fp + interpreter_frame_method_offset * wordSize))
            (mem (f.fp + interpreter_frame_bcp_offset * wordSize))) &&
  env.metaspace_is_valid (mem (f.fp + interpreter_frame_cache_offset * wordSize)) &&
  is_in_stack_range_incl t (f.fp + mem (f.fp + interpreter_frame_locals_offset * wordSize) * wordSize) f.fp

/-- `fp_safe` of `frame::safe_for_sender` (lines 89-90): fp strictly between
sp (exclusive) and the stack top, and the return-address slot address itself
inside the full stack. -/
def fp_safe (t : JavaThread) (f : Frame) : Bool :=
  is_in_stack_range_excl t f.fp f.sp &&
  is_in_full_stack_checked t (f.fp + return_addr_offset * wordSize)

/-- Checks on the candidate sender once the return-barrier substitution has
been resolved (lines 176-260 of `frame::safe_for_sender`): the interpreted
sender is validated via `is_interpreted_frame_valid` on a freshly built
frame descriptor; otherwise a code unit must resolve for the sender pc and
contain it, adapter blobs and upcall stubs are rejected, the call-stub
trampoline requires the JavaCallWrapper address to sit in range, compiled
senders at deopt / deopt-mh entries or of method-handle intrinsics are
rejected, the sender unit must have a positive frame size and must be an
nmethod. -/
def check_candidate_sender (env : Env) (mem : Int → Int) (t : JavaThread)
    (f : Frame) (sender_sp sender_unextended_sp saved_fp sender_pc : Int) : Bool :=
  if env.interpreter_contains sender_pc then
    is_in_stack_range_excl t saved_fp sender_sp &&
    is_interpreted_frame_valid env mem t
      { sp := sender_sp, unextended_sp := sender_unextended_sp, fp := saved_fp,
        pc := sender_pc, cb := env.find_blob sender_pc, on_heap := false,
        deopt_state := DeoptState.unknown }
  else
    (sender_pc != 0) &&
    (match env.find_blob sender_pc with
     | none => false
     | some sender_blob =>
       sender_blob.code_contains sender_pc &&
       !sender_blob.is_adapter_blob &&
       (if env.returns_to_call_stub sender_pc then
          is_in_stack_range_excl t saved_fp sender_sp &&
          is_in_stack_range_excl t
            (mem (saved_fp + entry_frame_call_wrapper_offset * wordSize)) saved_fp
        else
          !sender_blob.is_upcall_stub &&
          !(sender_blob.is_nmethod &&
            (sender_blob.is_deopt_mh_entry sender_pc ||
             sender_blob.is_deopt_entry sender_pc ||
             sender_blob.method_is_method_handle_intrinsic)) &&
          decide (0 < sender_blob.frame_size) &&
          sender_blob.is_nmethod))

/-- The return-barrier substitution of `frame::safe_for_sender`
(lines 164-174): if the candidate sender pc is the continuation return
barrier, the frame must actually belong to a continuation, and the candidate
sender sp / pc are replaced by those of the continuation-bottom sender
before the remaining candidate checks run. -/
def handle_return_barrier_then_check (env : Env) (mem : Int → Int)
    (t : JavaThread) (f : Frame)
    (sender_sp sender_unextended_sp saved_fp sender_pc : Int) : Bool :=
  if env.is_return_barrier_entry sender_pc then
    env.is_frame_in_continuation f &&
    check_candidate_sender env mem t f
      (env.continuation_bottom_sender f sender_sp).sp
      sender_unextended_sp saved_fp
      (env.continuation_bottom_sender f sender_sp).pc
  else
    check_candidate_sender env mem t f sender_sp sender_unextended_sp saved_fp sender_pc

/-- The code-cache arm of `frame::safe_for_sender` (lines 98-261), entered
when a code unit resolved for the frame's pc: the frame-completeness and
code-range guards, the entry-frame and upcall-stub early accepts, and the
two candidate-sender computations (interpreted: fixed fp-relative slots,
with `pauth_strip_verifiable` on the return address; compiled:
`sender_sp = unextended_sp + frame_size()` with the full-stack check and
`pauth_strip_pointer` on the word below sender_sp). -/
def safe_for_sender_cb (env : Env) (mem : Int → Int) (t : JavaThread)
    (f : Frame) (cb : CodeBlob) : Bool :=
  !(!cb.frame_complete_at f.pc &&
    (cb.is_nmethod || cb.is_adapter_blob || cb.is_runtime_stub)) &&
  cb.code_contains f.pc &&
  (if env.returns_to_call_stub f.pc then
     fp_safe t f && env.entry_frame_valid f
   else if cb.is_upcall_stub then
     fp_safe t f
   else if env.interpreter_contains f.pc then
     fp_safe t f &&
     handle_return_barrier_then_check env mem t f
       (f.fp + sender_sp_offset * wordSize)
       (mem (f.fp + interpreter_frame_sender_sp_offset * wordSize))
       (mem (f.fp + link_offset * wordSize))
       (env.pauth_strip_verifiable (mem (f.fp + return_addr_offset * wordSize)))
   else
     decide (0 < cb.frame_size) &&
     is_in_full_stack_checked t (f.unextended_sp + cb.frame_size * wordSize) &&
     handle_return_barrier_then_check env mem t f
       (f.unextended_sp + cb.frame_size * wordSize)
       (f.unextended_sp + cb.frame_size * wordSize)
       (mem (f.unextended_sp + cb.frame_size * wordSize - sender_sp_offset * wordSize))
       (env.pauth_strip_pointer (mem (f.unextended_sp + cb.frame_size * wordSize - wordSize))))

/-- `frame::safe_for_sender` (lines 57-279): heap frames are accepted at
once; sp must be in the usable stack and unextended sp in the full stack;
then either the code-cache arm runs, or (no code unit) the native
fp-chain fallback accepts iff `fp_safe` holds and the stored return address
is non-null. -/
def safe_for_sender (env : Env) (mem : Int → Int) (t : JavaThread)
    (f : Frame) : Bool :=
  if f.on_heap then true
  else
    is_in_usable_stack t f.sp &&
    is_in_full_stack_checked t f.unextended_sp &&
    (match f.cb with
     | some cb => safe_for_sender_cb env mem t f cb
     | none =>
       fp_safe t f && (mem (f.fp + return_addr_offset * wordSize) != 0))

/-- Result of `frame::patch_pc`: the Boolean outcomes of the two modelled
debug assertions, the updated frame descriptor, and the updated memory.
(The `_cb == CodeCache::find_blob(pc)` assert compares code-unit identity
and is not modelled.) -/
structure PatchResult where
  assert_barrier_ok : Bool
  assert_consistency_ok : Bool
  frame : Frame
  mem : Int → Int

/-- `frame::patch_pc` (lines 281-312): read the old return address one word
below sp and strip it; the consistency assertion demands it equal the
frame's recorded pc or the new pc, or be null; store the re-signed new pc
into the slot; set the pc field to the unsigned new pc, then query the
deopt original pc (keyed by that just-updated pc); a non-null original pc
sets `is_deoptimized` and replaces the pc field, otherwise the state is
`not_deoptimized`. -/
def patch_pc (env : Env) (mem : Int → Int) (f : Frame) (pc : Int) : PatchResult :=
  let pc_addr := f.sp - wordSize
  let signed_pc := env.pauth_sign_return_address pc
  let pc_old := env.pauth_strip_verifiable (mem pc_addr)
  let aok := (f.pc == pc_old) || (pc == pc_old) || (pc_old == 0)
  let bok := !env.is_return_barrier_entry pc_old
  let mem' := fun a => if a == pc_addr then signed_pc else mem a
  let original_pc := env.get_deopt_original_pc pc
  if original_pc != 0 then
    { assert_barrier_ok := bok, assert_consistency_ok := aok,
      frame := { f with pc := original_pc, deopt_state := DeoptState.is_deoptimized },
      mem := mem' }
  else
    { assert_barrier_ok := bok, assert_consistency_ok := aok,
      frame := { f with pc := pc, deopt_state := DeoptState.not_deoptimized },
      mem := mem' }

/-- The transition anchor of a thread: last recorded sp, fp and pc of a
call-out from managed code. -/
structure JavaFrameAnchor where
  last_Java_sp : Int
  last_Java_fp : Int
  last_Java_pc : Int
deriving DecidableEq, Repr

/-- Modelled from the spec: `JavaFrameAnchor::walkable` (declared in an
anchor header outside the excerpt): the anchor is walkable once both sp and
pc are recorded. -/
def JavaFrameAnchor.walkable (a : JavaFrameAnchor) : Bool :=
  (a.last_Java_sp != 0) && (a.last_Java_pc != 0)

/-- `JavaFrameAnchor::make_walkable` (lines 825-834): no-op when no
call-out is recorded or the anchor is already walkable; otherwise the word
below the recorded sp is captured into the pc field.  The second component
counts the stack-word reads the call performs. -/
def make_walkable (mem : Int → Int) (a : JavaFrameAnchor) : JavaFrameAnchor × Nat :=
  if a.last_Java_sp == 0 then (a, 0)
  else if a.walkable then (a, 0)
  else ({ a with last_Java_pc := mem (a.last_Java_sp - wordSize) }, 1)

/-! ### Concrete instances used by witnesses and counterexamples -/

/-- The all-zero memory. -/
def memZero : Int → Int := fun _ => 0

/-- A memory with two interesting words: the return-address slot of the
plain native frame below (address 2472) and the word below the anchor sp
used by the make-walkable witness (address 2392). -/
def memTwo : Int → Int := fun a => if a = 2472 then 555 else if a = 2392 then 777 else 0

/-- A thread whose stack spans `[1000, 8000)` with guard pages below 2000. -/
def tMain : JavaThread := { stack_base := 8000, stack_end := 1000, reserved_zone_base := 2000 }

/-- A baseline oracle environment: empty code cache, no interpreter or stub
hits, identity pointer authentication, all metadata invalid. -/
def envBase : Env :=
  { find_blob := fun _ => none
    interpreter_contains := fun _ => false
    returns_to_call_stub := fun _ => false
    is_return_barrier_entry := fun _ => false
    is_frame_in_continuation := fun _ => false
    continuation_bottom_sender := fun f _ => f
    entry_frame_valid := fun _ => false
    pauth_strip_verifiable := fun x => x
    pauth_strip_pointer := fun x => x
    pauth_sign_return_address := fun x => x
    is_valid_method := fun _ => false
    method_max_stack := fun _ => 0
    validate_bci_from_bcp := fun _ _ => -1
    metaspace_is_valid := fun _ => false
    get_deopt_original_pc := fun _ => 0 }

/-- An ordinary compiled-method code unit with a two-word frame. -/
def blobNm : CodeBlob :=
  { frame_complete_at := fun _ => true
    code_contains := fun _ => true
    frame_size := 2
    is_nmethod := true
    is_adapter_blob := false
    is_runtime_stub := false
    is_upcall_stub := false
    is_deopt_entry := fun _ => false
    is_deopt_mh_entry := fun _ => false
    method_is_method_handle_intrinsic := false }

/-- A code unit reporting a zero frame size. -/
def blobZero : CodeBlob := { blobNm with frame_size := 0 }

/-- A plain native frame (no code unit) with sane geometry inside `tMain`. -/
def fPlain : Frame :=
  { sp := 2400, unextended_sp := 2400, fp := 2464, pc := 123, cb := none,
    on_heap := false, deopt_state := DeoptState.unknown }

/-- A heap frame whose sp is far outside the stack of `tMain`. -/
def fHeap : Frame :=
  { sp := -5000, unextended_sp := -5000, fp := 0, pc := 0, cb := none,
    on_heap := true, deopt_state := DeoptState.unknown }

/-- A frame owned by the zero-frame-size code unit. -/
def fZeroBlob : Frame := { fPlain with pc := 5, cb := some blobZero }

/-- Oracles that accept every method, bytecode index and metadata pointer. -/
def envValidInterp : Env :=
  { envBase with
    is_valid_method := fun _ => true
    validate_bci_from_bcp := fun _ _ => 0
    metaspace_is_valid := fun _ => true }

/-- A thread large enough for the interpreted-frame counterexample. -/
def tWide : JavaThread := { stack_base := 200000, stack_end := 0, reserved_zone_base := 0 }

/-- An interpreted-looking frame: valid per `is_interpreted_frame_valid`
(its fp-to-unextended-sp gap is 100 words) while its fp-to-sp gap is 12499
words. -/
def fGap : Frame :=
  { sp := 8, unextended_sp := 99200, fp := 100000, pc := 0, cb := none,
    on_heap := false, deopt_state := DeoptState.unknown }

/-- Oracles with a non-trivial pointer-authentication pair:
`strip (sign x) = x`. -/
def envPauth : Env :=
  { envBase with
    pauth_sign_return_address := fun x => x + 1000
    pauth_strip_verifiable := fun x => x - 1000 }

/-- Oracles for which every pc is the continuation return barrier while no
frame belongs to a continuation. -/
def envBarrier : Env :=
  { envBase with is_return_barrier_entry := fun _ => true }

/-- Oracles whose code cache resolves every pc to the compiled unit
`blobNm`. -/
def envFind : Env := { envBase with find_blob := fun _ => some blobNm }

/-- An anchor with a recorded sp (2400) and no captured pc. -/
def aW : JavaFrameAnchor := { last_Java_sp := 2400, last_Java_fp := 2464, last_Java_pc := 0 }

/-! ### Helper lemmas -/

/-- Both branches of `patch_pc` write the re-signed pc to the slot one word
below sp and leave the rest of memory alone. -/
theorem patch_pc_mem (env : Env) (mem : Int → Int) (f : Frame) (pc : Int) :
    (patch_pc env mem f pc).mem =
      fun a => if a == f.sp - wordSize then env.pauth_sign_return_address pc else mem a := by
  unfold patch_pc
  dsimp only
  split <;> rfl

/-- Both branches of `patch_pc` leave sp unchanged in the frame field. -/
theorem patch_pc_frame_sp (env : Env) (mem : Int → Int) (f : Frame) (pc : Int) :
    (patch_pc env mem f pc).frame.sp = f.sp := by
  unfold patch_pc
  dsimp only
  split <;> rfl

/-- The consistency assertion of `patch_pc`, extracted: the old stripped
slot value must equal the recorded pc or the new pc, or be null. -/
theorem patch_pc_assert (env : Env) (mem : Int → Int) (f : Frame) (pc : Int) :
    (patch_pc env mem f pc).assert_consistency_ok =
      ((f.pc == env.pauth_strip_verifiable (mem (f.sp - wordSize))) ||
       (pc == env.pauth_strip_verifiable (mem (f.sp - wordSize))) ||
       (env.pauth_strip_verifiable (mem (f.sp - wordSize)) == 0)) := by
  unfold patch_pc
  dsimp only
  split <;> rfl

/-! ### Claims -/

/-- Claim C9: every frame classified as a heap frame is accepted by
`safe_for_sender` immediately, whatever its sp, unextended sp, fp, pc and
whatever the thread's stack bounds: the heap test is the first check and
short-circuits all others. -/
theorem safe_for_sender_heap_frame (env : Env) (mem : Int → Int) (t : JavaThread)
    (f : Frame) (h : f.on_heap = true) :
    safe_for_sender env mem t f = true := by
  unfold safe_for_sender
  rw [h]
  simp

/-- Witness for C9: a heap frame whose raw values are far outside the
thread's stack is still accepted. -/
theorem safe_for_sender_heap_frame_witness :
    safe_for_sender envBase memZero tMain fHeap = true :=
  safe_for_sender_heap_frame envBase memZero tMain fHeap rfl

/-- Counterexample to C1 as stated: `fHeap` has sp outside the usable stack
of `tMain`, yet `safe_for_sender` returns true, because `fHeap` is a heap
frame and the heap test precedes the stack-bounds test. -/
theorem safe_for_sender_sp_claim_counterexample :
    is_in_usable_stack tMain fHeap.sp = false ∧
    safe_for_sender envBase memZero tMain fHeap = true := by
  constructor
  · decide
  · rfl

/-- Claim C1 (amended: restricted to frames not classified as heap frames):
if sp is outside the usable stack, `safe_for_sender` returns false. -/
theorem safe_for_sender_sp_not_usable (env : Env) (mem : Int → Int)
    (t : JavaThread) (f : Frame) (hheap : f.on_heap = false)
    (hsp : is_in_usable_stack t f.sp = false) :
    safe_for_sender env mem t f = false := by
  unfold safe_for_sender
  rw [hheap]
  simp [hsp]

/-- Witness for C1: a non-heap frame with the same out-of-stack sp is
rejected. -/
theorem safe_for_sender_sp_not_usable_witness :
    safe_for_sender envBase memZero tMain { fHeap with on_heap := false } = false :=
  safe_for_sender_sp_not_usable envBase memZero tMain _ rfl (by decide)

/-- Claim C7: when no code unit resolves for the pc and sp / unextended sp
have passed the stack-region checks, `safe_for_sender` accepts exactly when
fp lies strictly between sp (exclusive) and the stack top, the
return-address slot (fp plus one word) is itself inside the stack, and the
word stored in that slot is non-null. -/
theorem safe_for_sender_no_code_unit (env : Env) (mem : Int → Int)
    (t : JavaThread) (f : Frame) (hheap : f.on_heap = false) (hcb : f.cb = none)
    (hsp : is_in_usable_stack t f.sp = true)
    (husp : is_in_full_stack_checked t f.unextended_sp = true) :
    safe_for_sender env mem t f =
      (is_in_stack_range_excl t f.fp f.sp &&
       is_in_full_stack_checked t (f.fp + return_addr_offset * wordSize) &&
       (mem (f.fp + return_addr_offset * wordSize) != 0)) := by
  unfold safe_for_sender fp_safe
  rw [hheap, hcb]
  simp [hsp, husp, Bool.and_assoc]

/-- Witness for C7: the plain native frame `fPlain` with a non-null stored
return address is accepted. -/
theorem safe_for_sender_no_code_unit_witness :
    safe_for_sender envBase memTwo tMain fPlain = true :=
  (safe_for_sender_no_code_unit envBase memTwo tMain fPlain rfl rfl (by decide)
    (by decide)).trans (by decide)

/-- Claim C10: the `patch_pc` consistency assertion passes when the old
stripped slot value is null, and it fails exactly when that value is
non-null and differs from both the frame's recorded pc and the new pc. -/
theorem patch_pc_assert_characterization (env : Env) (mem : Int → Int)
    (f : Frame) (pc : Int) :
    (env.pauth_strip_verifiable (mem (f.sp - wordSize)) = 0 →
      (patch_pc env mem f pc).assert_consistency_ok = true) ∧
    ((patch_pc env mem f pc).assert_consistency_ok = false ↔
      (env.pauth_strip_verifiable (mem (f.sp - wordSize)) ≠ 0 ∧
       env.pauth_strip_verifiable (mem (f.sp - wordSize)) ≠ f.pc ∧
       env.pauth_strip_verifiable (mem (f.sp - wordSize)) ≠ pc)) := by
  rw [patch_pc_assert env mem f pc]
  constructor
  · intro h0
    simp [h0]
  · simp only [Bool.or_eq_false_iff, beq_eq_false_iff_ne, ne_eq]
    constructor
    · rintro ⟨⟨h1, h2⟩, h3⟩
      exact ⟨h3, fun h => h1 h.symm, fun h => h2 h.symm⟩
    · rintro ⟨h3, h1, h2⟩
      exact ⟨⟨fun h => h1 h.symm, fun h => h2 h.symm⟩, h3⟩

/-- Witness for C10: with a null old slot value the assertion passes. -/
theorem patch_pc_assert_characterization_witness :
    (patch_pc envBase memZero fPlain 7).assert_consistency_ok = true :=
  (patch_pc_assert_characterization envBase memZero fPlain 7).1 rfl

/-- Claim C8: `make_walkable` is a no-op when no call-out is recorded and
when the anchor is already walkable; otherwise it captures exactly the word
below the recorded sp into the pc field; and (provided the captured word is
non-null, which the source asserts via `vmassert(walkable(), ...)`) two
consecutive calls produce identical anchors and read the stack word only
once in total. -/
theorem make_walkable_idempotent (mem : Int → Int) (a : JavaFrameAnchor) :
    (a.last_Java_sp = 0 → make_walkable mem a = (a, 0)) ∧
    (a.walkable = true → make_walkable mem a = (a, 0)) ∧
    (a.last_Java_sp ≠ 0 → a.walkable = false →
      make_walkable mem a =
        ({ a with last_Java_pc := mem (a.last_Java_sp - wordSize) }, 1)) ∧
    (mem (a.last_Java_sp - wordSize) ≠ 0 →
      (make_walkable mem (make_walkable mem a).1).1 = (make_walkable mem a).1 ∧
      (make_walkable mem a).2 + (make_walkable mem (make_walkable mem a).1).2 ≤ 1) := by
  unfold make_walkable
  by_cases h0 : a.last_Java_sp = 0
  · simp [h0]
  · by_cases hw : a.walkable = true
    · simp [h0, hw]
    · refine ⟨fun h => absurd h h0, fun h => absurd h hw, fun _ _ => by simp [h0, hw], ?_⟩
      intro hm
      have hw2 : JavaFrameAnchor.walkable
          { a with last_Java_pc := mem (a.last_Java_sp - wordSize) } = true := by
        unfold JavaFrameAnchor.walkable
        simp [h0, hm]
      simp [h0, hw, hw2]

/-- Witness for C8: on the anchor `aW` (recorded sp, no pc) with the
two-point memory, two calls agree and the word is read once. -/
theorem make_walkable_idempotent_witness :
    (make_walkable memTwo (make_walkable memTwo aW).1).1 = (make_walkable memTwo aW).1 :=
  ((make_walkable_idempotent memTwo aW).2.2.2 (by decide)).1

/-- Claim C3: `patch_pc` stores the re-signed new pc into the slot one word
below sp (so its stripped value is the new pc again); the deopt query is
keyed by the just-updated logical pc (the unsigned new pc); a non-null
original pc sets `is_deoptimized` and replaces the logical pc, a null one
sets `not_deoptimized`; and patching twice with the same pc does not
trigger the consistency assertion on the second call.  The hypothesis is
the spec's pointer-authentication contract `strip (sign x) = x` at the
patched pc. -/
theorem patch_pc_round_trip (env : Env) (mem : Int → Int) (f : Frame) (pc : Int)
    (h : env.pauth_strip_verifiable (env.pauth_sign_return_address pc) = pc) :
    (patch_pc env mem f pc).mem (f.sp - wordSize) = env.pauth_sign_return_address pc ∧
    env.pauth_strip_verifiable ((patch_pc env mem f pc).mem (f.sp - wordSize)) = pc ∧
    (env.get_deopt_original_pc pc ≠ 0 →
      (patch_pc env mem f pc).frame.deopt_state = DeoptState.is_deoptimized ∧
      (patch_pc env mem f pc).frame.pc = env.get_deopt_original_pc pc) ∧
    (env.get_deopt_original_pc pc = 0 →
      (patch_pc env mem f pc).frame.deopt_state = DeoptState.not_deoptimized ∧
      (patch_pc env mem f pc).frame.pc = pc) ∧
    (patch_pc env (patch_pc env mem f pc).mem (patch_pc env mem f pc).frame pc).assert_consistency_ok
      = true := by
  have hm : (patch_pc env mem f pc).mem (f.sp - wordSize) = env.pauth_sign_return_address pc := by
    rw [patch_pc_mem]
    simp
  refine ⟨hm, by rw [hm, h], ?_, ?_, ?_⟩
  · intro hne
    unfold patch_pc
    dsimp only
    rw [if_pos (by simpa using hne)]
    exact ⟨rfl, rfl⟩
  · intro hz
    unfold patch_pc
    dsimp only
    rw [if_neg (by simp [hz])]
    exact ⟨rfl, rfl⟩
  · rw [patch_pc_assert, patch_pc_frame_sp, hm, h]
    simp

/-- Witness for C3: concrete non-trivial signing (`x + 1000` / `x - 1000`);
the second patch with the same pc passes the consistency assertion. -/
theorem patch_pc_round_trip_witness :
    (patch_pc envPauth (patch_pc envPauth memZero fPlain 7).mem
      (patch_pc envPauth memZero fPlain 7).frame 7).assert_consistency_ok = true :=
  (patch_pc_round_trip envPauth memZero fPlain 7 (by decide)).2.2.2.2

/-- Claim C4: on the compiled/runtime-stub arm of `safe_for_sender` (a code
unit resolved, the frame is neither an entry frame, an upcall stub, nor
interpreted), a non-positive `frame_size` forces rejection, as does a
candidate sender sp `unextended_sp + frame_size` outside the thread's full
stack region. -/
theorem safe_for_sender_compiled_frame_size (env : Env) (mem : Int → Int)
    (t : JavaThread) (f : Frame) (cb : CodeBlob)
    (hheap : f.on_heap = false) (hcb : f.cb = some cb)
    (hentry : env.returns_to_call_stub f.pc = false)
    (hupcall : cb.is_upcall_stub = false)
    (hinterp : env.interpreter_contains f.pc = false)
    (hbad : cb.frame_size ≤ 0 ∨
            is_in_full_stack_checked t (f.unextended_sp + cb.frame_size * wordSize) = false) :
    safe_for_sender env mem t f = false := by
  have hc : safe_for_sender_cb env mem t f cb = false := by
    unfold safe_for_sender_cb
    rw [hentry, hupcall, hinterp]
    rcases hbad with hfs | hfull
    · have hdec : decide (0 < cb.frame_size) = false := by
        simp
        omega
      simp [hdec]
    · simp [hfull]
  unfold safe_for_sender
  rw [hheap, hcb]
  simp [hc]

/-- Witness for C4: the frame owned by the zero-frame-size unit is
rejected. -/
theorem safe_for_sender_compiled_frame_size_witness :
    safe_for_sender envBase memZero tMain fZeroBlob = false :=
  safe_for_sender_compiled_frame_size envBase memZero tMain fZeroBlob blobZero
    rfl rfl rfl rfl rfl (Or.inl (by decide))

/-- Claim C5: when the candidate sender pc is the continuation return
barrier, the candidate checks fail unless the frame belongs to a
continuation; with membership confirmed, the candidate sender sp and pc are
replaced by those of the continuation-bottom sender before any further
checking; and on the compiled arm of `safe_for_sender` a return-barrier
candidate pc with no continuation membership makes the whole function
return false. -/
theorem safe_for_sender_return_barrier (env : Env) (mem : Int → Int)
    (t : JavaThread) (f : Frame)
    (sender_sp sender_unextended_sp saved_fp sender_pc : Int)
    (hb : env.is_return_barrier_entry sender_pc = true) :
    (env.is_frame_in_continuation f = false →
      handle_return_barrier_then_check env mem t f
        sender_sp sender_unextended_sp saved_fp sender_pc = false) ∧
    (env.is_frame_in_continuation f = true →
      handle_return_barrier_then_check env mem t f
        sender_sp sender_unextended_sp saved_fp sender_pc =
      check_candidate_sender env mem t f
        (env.continuation_bottom_sender f sender_sp).sp
        sender_unextended_sp saved_fp
        (env.continuation_bottom_sender f sender_sp).pc) ∧
    (∀ cb : CodeBlob, f.on_heap = false → f.cb = some cb →
      env.returns_to_call_stub f.pc = false → cb.is_upcall_stub = false →
      env.interpreter_contains f.pc = false →
      env.is_return_barrier_entry
        (env.pauth_strip_pointer
          (mem (f.unextended_sp + cb.frame_size * wordSize - wordSize))) = true →
      env.is_frame_in_continuation f = false →
      safe_for_sender env mem t f = false) := by
  refine ⟨?_, ?_, ?_⟩
  · intro hc
    unfold handle_return_barrier_then_check
    rw [hb]
    simp [hc]
  · intro hc
    unfold handle_return_barrier_then_check
    rw [hb]
    simp [hc]
  · intro cb hheap hcb hentry hupcall hinterp hbar hc
    have hcbf : safe_for_sender_cb env mem t f cb = false := by
      unfold safe_for_sender_cb
      rw [hentry, hupcall, hinterp]
      unfold handle_return_barrier_then_check
      rw [hbar]
      simp [hc]
    unfold safe_for_sender
    rw [hheap, hcb]
    simp [hcbf]

/-- Witness for C5: with every pc a return barrier and no continuation
membership, the candidate checks reject. -/
theorem safe_for_sender_return_barrier_witness :
    handle_return_barrier_then_check envBarrier memZero tMain fPlain 0 0 0 0 = false :=
  (safe_for_sender_return_barrier envBarrier memZero tMain fPlain 0 0 0 0 rfl).1 rfl

/-- Counterexample to C2 as stated: `fGap` passes
`is_interpreted_frame_valid` (its fp-to-unextended-sp gap is only 100
words) although the gap between fp and the stack pointer sp is 12499 words,
far beyond the claimed bound of 1024 + max_stack * stackElementSize: the
source compares fp against `unextended_sp`, not against sp. -/
theorem is_interpreted_frame_valid_gap_counterexample :
    is_interpreted_frame_valid envValidInterp memZero tWide fGap = true ∧
    1024 + envValidInterp.method_max_stack
        (memZero (fGap.fp + interpreter_frame_method_offset * wordSize)) * stackElementSize
      < ptrDiffWords fGap.fp fGap.sp := by
  constructor
  · decide
  · decide

/-- Claim C2 (amended: the frame-size plausibility gap is measured between
fp and the frame's unextended sp, not its sp): `is_interpreted_frame_valid`
returns true only if fp and sp are non-null and word-aligned, fp is
strictly above sp (so every frame with fp ≤ sp is rejected), the word gap
between fp and the unextended sp is at most 1024 plus the method's max
operand-stack depth times the stack element size, the stored method
reference is valid, the stored bytecode position decodes to a non-negative
index, the stored constant-pool-cache reference is valid metadata, and the
computed locals base lies in the thread's stack up to fp. -/
theorem is_interpreted_frame_valid_necessary (env : Env) (mem : Int → Int)
    (t : JavaThread) (f : Frame)
    (h : is_interpreted_frame_valid env mem t f = true) :
    f.fp ≠ 0 ∧ f.fp % wordSize = 0 ∧ f.sp ≠ 0 ∧ f.sp % wordSize = 0 ∧
    f.sp < f.fp ∧ ¬ (f.fp ≤ f.sp) ∧
    ptrDiffWords f.fp f.unextended_sp ≤
      1024 + env.method_max_stack
        (mem (f.fp + interpreter_frame_method_offset * wordSize)) * stackElementSize ∧
    env.is_valid_method (mem (f.fp + interpreter_frame_method_offset * wordSize)) = true ∧
    0 ≤ env.validate_bci_from_bcp
        (mem (f.fp + interpreter_frame_method_offset * wordSize))
        (mem (f.fp + interpreter_frame_bcp_offset * wordSize)) ∧
    env.metaspace_is_valid (mem (f.fp + interpreter_frame_cache_offset * wordSize)) = true ∧
    is_in_stack_range_incl t
      (f.fp + mem (f.fp + interpreter_frame_locals_offset * wordSize) * wordSize) f.fp = true := by
  unfold is_interpreted_frame_valid at h
  simp only [Bool.and_eq_true, bne_iff_ne, ne_eq, beq_iff_eq, Bool.not_eq_true',
    decide_eq_false_iff_not, decide_eq_true_eq, not_lt] at h
  obtain ⟨⟨⟨⟨⟨⟨⟨⟨⟨⟨h1, h2⟩, h3⟩, h4⟩, h5⟩, h6⟩, h7⟩, h8⟩, h9⟩, h10⟩, h11⟩ := h
  exact ⟨h1, h2, h3, h4, h6, by omega, h8, h7, h9, h10, h11⟩

/-- Witness for C2: the valid interpreted-looking frame `fGap` satisfies
every necessary condition; here the key one is fp strictly above sp. -/
theorem is_interpreted_frame_valid_necessary_witness :
    fGap.sp < fGap.fp :=
  (is_interpreted_frame_valid_necessary envValidInterp memZero tWide fGap
    (by decide)).2.2.2.2.1

/-- Claim C6: case analysis of the candidate-sender checks when the
candidate sender pc is not inside the interpreter: a null sender pc, a
missing code unit, a unit not containing the pc, and an adapter blob are
all rejected; on the returns-to-call-stub trampoline the result is true
exactly when the earlier guards pass and both the saved fp and the
JavaCallWrapper address stored at the entry-frame slot pass their exclusive
stack-range checks ("the call-wrapper record lies strictly within the
candidate sender frame"); otherwise upcall stubs are rejected, compiled
methods at deopt or deopt-method-handle entries or belonging to
method-handle intrinsics are rejected, a non-positive frame size is
rejected, anything that is not an nmethod is rejected, and when none of
these apply the candidate is accepted. -/
theorem check_candidate_sender_cases (env : Env) (mem : Int → Int)
    (t : JavaThread) (f : Frame)
    (sender_sp sender_unextended_sp saved_fp sender_pc : Int)
    (hni : env.interpreter_contains sender_pc = false) :
    (sender_pc = 0 →
      check_candidate_sender env mem t f sender_sp sender_unextended_sp saved_fp sender_pc = false) ∧
    (env.find_blob sender_pc = none →
      check_candidate_sender env mem t f sender_sp sender_unextended_sp saved_fp sender_pc = false) ∧
    (∀ b : CodeBlob, env.find_blob sender_pc = some b → b.code_contains sender_pc = false →
      check_candidate_sender env mem t f sender_sp sender_unextended_sp saved_fp sender_pc = false) ∧
    (∀ b : CodeBlob, env.find_blob sender_pc = some b → b.is_adapter_blob = true →
      check_candidate_sender env mem t f sender_sp sender_unextended_sp saved_fp sender_pc = false) ∧
    (∀ b : CodeBlob, env.find_blob sender_pc = some b →
      env.returns_to_call_stub sender_pc = true →
      (check_candidate_sender env mem t f sender_sp sender_unextended_sp saved_fp sender_pc = true ↔
        (sender_pc ≠ 0 ∧ b.code_contains sender_pc = true ∧ b.is_adapter_blob = false ∧
         is_in_stack_range_excl t saved_fp sender_sp = true ∧
         is_in_stack_range_excl t
           (mem (saved_fp + entry_frame_call_wrapper_offset * wordSize)) saved_fp = true))) ∧
    (∀ b : CodeBlob, env.find_blob sender_pc = some b →
      env.returns_to_call_stub sender_pc = false → b.is_upcall_stub = true →
      check_candidate_sender env mem t f sender_sp sender_unextended_sp saved_fp sender_pc = false) ∧
    (∀ b : CodeBlob, env.find_blob sender_pc = some b →
      env.returns_to_call_stub sender_pc = false → b.is_nmethod = true →
      (b.is_deopt_mh_entry sender_pc || b.is_deopt_entry sender_pc ||
       b.method_is_method_handle_intrinsic) = true →
      check_candidate_sender env mem t f sender_sp sender_unextended_sp saved_fp sender_pc = false) ∧
    (∀ b : CodeBlob, env.find_blob sender_pc = some b →
      env.returns_to_call_stub sender_pc = false → b.frame_size ≤ 0 →
      check_candidate_sender env mem t f sender_sp sender_unextended_sp saved_fp sender_pc = false) ∧
    (∀ b : CodeBlob, env.find_blob sender_pc = some b →
      env.returns_to_call_stub sender_pc = false → b.is_nmethod = false →
      check_candidate_sender env mem t f sender_sp sender_unextended_sp saved_fp sender_pc = false) ∧
    (∀ b : CodeBlob, env.find_blob sender_pc = some b → sender_pc ≠ 0 →
      b.code_contains sender_pc = true → b.is_adapter_blob = false →
      env.returns_to_call_stub sender_pc = false → b.is_upcall_stub = false →
      (b.is_nmethod && (b.is_deopt_mh_entry sender_pc || b.is_deopt_entry sender_pc ||
        b.method_is_method_handle_intrinsic)) = false →
      0 < b.frame_size → b.is_nmethod = true →
      check_candidate_sender env mem t f sender_sp sender_unextended_sp saved_fp sender_pc = true) := by
  refine ⟨?_, ?_, ?_, ?_, ?_, ?_, ?_, ?_, ?_, ?_⟩
  · intro h0
    unfold check_candidate_sender
    rw [hni]
    simp [h0]
  · intro hf
    unfold check_candidate_sender
    rw [hni, hf]
    simp
  · intro b hf hcc
    unfold check_candidate_sender
    rw [hni, hf]
    simp [hcc]
  · intro b hf had
    unfold check_candidate_sender
    rw [hni, hf]
    simp [had]
  · intro b hf hstub
    unfold check_candidate_sender
    rw [hni, hf, hstub]
    simp [Bool.and_eq_true, and_assoc]
  · intro b hf hstub hup
    unfold check_candidate_sender
    rw [hni, hf, hstub]
    simp [hup]
  · intro b hf hstub hnm hde
    unfold check_candidate_sender
    rw [hni, hf, hstub]
    simp [hnm, hde]
  · intro b hf hstub hfs
    unfold check_candidate_sender
    rw [hni, hf, hstub]
    have hdec : decide (0 < b.frame_size) = false := by
      simp
      omega
    simp [hdec]
  · intro b hf hstub hnm
    unfold check_candidate_sender
    rw [hni, hf, hstub]
    simp [hnm]
  · intro b hf h0 hcc had hstub hup hde hfs hnm
    unfold check_candidate_sender
    rw [hni, hf, hstub]
    rw [hnm] at hde
    simp only [Bool.true_and, Bool.or_eq_false_iff] at hde
    simp [h0, hcc, had, hup, hnm, hfs, hde.1.1, hde.1.2, hde.2]

/-- Witness for C6: the compiled unit `blobNm` resolved at a non-null,
non-stub, non-interpreter sender pc is accepted. -/
theorem check_candidate_sender_cases_witness :
    check_candidate_sender envFind memZero tMain fPlain 2416 2416 2464 77 = true :=
  (check_candidate_sender_cases envFind memZero tMain fPlain 2416 2416 2464 77
      rfl).2.2.2.2.2.2.2.2.2 blobNm rfl (by decide) rfl rfl rfl rfl rfl (by decide) rfl

end FrameAarch64
